import Mathlib

/-!
Verification of the AI Smart Campus Assistant complaint-triage pipeline.

This file is a shallow embedding of the three core components of the
repository (`ai_module/categorizer.py`, `ai_module/sentiment_analyzer.py`,
`ai_module/predictor.py`) together with theorems settling the behavioural
claims about them.

Modelling conventions:
* Python floats are modelled as exact rationals (`ℚ`); Python `int(x)`
  truncation toward zero is `int_trunc`, and Python `round(x, 1)`
  (banker's rounding to one decimal) is `round1`.
* Third-party library calls are abstracted as parameters: the Porter
  stemmer (`stem : String → String`), the NLTK tokenizer output
  (`tokens : List String`, the result of `preprocess_text`), the TextBlob
  sentiment pair (`polarity`, `subjectivity`), the count of urgent
  keywords (`urgent_count`), and the random variance draw (`variance`).
  All theorems quantify over these, so they hold for every possible
  behaviour of the libraries.
* The predictor's mutable `workload_factor` is passed explicitly
  (state-passing style): `predict_resolution_time` takes the current
  factor as its first argument and `update_workload_factor` is the pure
  step function that produces the new factor.
* Python `dict`s preserve insertion order; they are modelled as
  association lists in declaration order.
-/

namespace AISmartCampus

/-! ### Categorizer (`ai_module/categorizer.py`) -/

/-- The category → seed-keyword mapping of `ComplaintCategorizer.__init__`,
in declaration order. -/
def category_keywords : List (String × List String) :=
  [("IT Issues",
      ["internet", "wifi", "network", "computer", "laptop", "lab",
       "software", "hardware", "printer", "projector", "system",
       "server", "website", "portal", "login", "password", "slow",
       "connection", "download", "upload", "screen", "mouse", "keyboard"]),
   ("Hostel Management",
      ["hostel", "room", "accommodation", "mess", "food", "canteen",
       "warden", "cleanliness", "maintenance", "water", "electricity",
       "bed", "mattress", "bathroom", "toilet", "hot water", "cold water",
       "roommate", "noise", "hygiene", "laundry", "dining"]),
   ("Academics",
      ["exam", "test", "marks", "grades", "faculty", "professor",
       "teacher", "course", "class", "lecture", "syllabus", "schedule",
       "timetable", "attendance", "assignment", "project", "lab report",
       "curriculum", "subject", "semester", "academic", "study"]),
   ("Administration",
      ["certificate", "document", "bonafide", "admission", "registration",
       "fee", "payment", "scholarship", "id card", "transcript",
       "verification", "office", "application", "form", "approval",
       "process", "department", "staff", "administration", "official"]),
   ("Library",
      ["library", "book", "reference", "journal", "reading room",
       "librarian", "borrow", "return", "due date", "fine", "catalog",
       "search", "database", "e-book", "digital", "photocopy",
       "study space", "quiet", "hours", "membership"]),
   ("Sports & Recreation",
      ["sports", "playground", "field", "court", "gym", "fitness",
       "basketball", "football", "cricket", "volleyball", "equipment",
       "recreation", "athletic", "tournament", "game", "physical",
       "exercise", "coach", "training", "facility"]),
   ("Other", [])]

/-- The fixed category set: the keys of `category_keywords`, in
declaration order. -/
def categoryNames : List String := category_keywords.map Prod.fst

/-- `ComplaintCategorizer.calculate_category_scores`: for each category,
count how many tokens are members of the stemmed keyword list
(`self.stemmer.stem(kw.lower())` for each seed keyword; the stemmer is
abstracted as `stem`).  Repeated tokens count repeatedly. -/
def calculate_category_scores (stem : String → String)
    (tokens : List String) : List (String × ℕ) :=
  category_keywords.map (fun ck =>
    let stemmed_keywords := ck.2.map (fun kw => stem kw.toLower)
    (ck.1, (tokens.filter (fun t => stemmed_keywords.contains t)).length))

/-- Python `max` over a list of naturals (`max(scores.values())`).
Python `max` raises on an empty sequence; here the scores list always has
seven entries, so the `[]` case is unreachable and returns `0`. -/
def py_max_nat : List ℕ → ℕ
  | [] => 0
  | x :: xs => xs.foldl Nat.max x

/-- One comparison step of Python `max(..., key=...)`: the running winner
`w` is replaced only when the next entry's key is strictly greater. -/
def py_max_step (w y : String × ℕ) : String × ℕ := if y.2 > w.2 then y else w

/-- Python `max(scores, key=scores.get)` over an insertion-ordered dict:
fold the comparison step from the first entry, so the first entry
attaining the maximum wins.  The `[]` case is unreachable (the scores
list is never empty). -/
def py_max_pair : List (String × ℕ) → String × ℕ
  | [] => ("Other", 0)
  | x :: xs => xs.foldl py_max_step x

/-- The inference path of `ComplaintCategorizer.categorize` (no manual
override): score every category, return `("Other", 0.5)` when nothing
matched, otherwise the first best-scoring category with confidence
`max_score / total`, capped at `0.99`. -/
def categorize_auto (stem : String → String) (tokens : List String) :
    String × ℚ :=
  let scores := calculate_category_scores stem tokens
  let max_score := py_max_nat (scores.map Prod.snd)
  if max_score = 0 then ("Other", 1/2)
  else
    let best_category := (py_max_pair scores).1
    let total_keywords := (scores.map Prod.snd).sum
    let confidence : ℚ :=
      if 0 < total_keywords then (max_score : ℚ) / (total_keywords : ℚ)
      else 1/2
    (best_category, min confidence (99/100))

/-- `ComplaintCategorizer.categorize`: a manual category that is a key of
`category_keywords` short-circuits with confidence `0.95`; anything else
(including `None` and the falsy empty string, which is not a key anyway)
falls through to the inference path. -/
def categorize (stem : String → String) (tokens : List String)
    (manual_category : Option String) : String × ℚ :=
  match manual_category with
  | some mc =>
      if mc ∈ categoryNames then (mc, 95/100) else categorize_auto stem tokens
  | none => categorize_auto stem tokens

/-- Stable descending insertion (by the score component) used to model
Python's stable `sorted(scores.items(), key=lambda x: x[1], reverse=True)`:
the new element goes in front of the first element whose score is not
strictly greater, so earlier entries win ties. -/
def insertDesc (x : String × ℕ) : List (String × ℕ) → List (String × ℕ)
  | [] => [x]
  | y :: ys => if y.2 > x.2 then y :: insertDesc x ys else x :: y :: ys

/-- Stable descending sort by score (Python `sorted(..., reverse=True)`,
which is stable). -/
def sortDesc : List (String × ℕ) → List (String × ℕ)
  | [] => []
  | x :: xs => insertDesc x (sortDesc xs)

/-- Python slice `l[:n]` for an arbitrary integer `n`: a nonnegative stop
takes the first `n` elements; a negative stop drops the last `|n|`
elements (clamped at zero). -/
def pyslice (n : ℤ) (l : List α) : List α :=
  if 0 ≤ n then l.take n.toNat else l.take (l.length - (-n).toNat)

/-- `ComplaintCategorizer.get_category_suggestions`: sort the scores
descending (stably), slice the first `top_n`, and attach confidence
`score / total_score` (or `0.0` when the total is zero). -/
def get_category_suggestions (stem : String → String) (tokens : List String)
    (top_n : ℤ) : List (String × ℚ) :=
  let scores := calculate_category_scores stem tokens
  let sorted_categories := sortDesc scores
  let total_score := (scores.map Prod.snd).sum
  (pyslice top_n sorted_categories).map (fun p =>
    (p.1, if 0 < total_score then (p.2 : ℚ) / (total_score : ℚ) else 0))

/-! ### Sentiment analyzer (`ai_module/sentiment_analyzer.py`)

`analyze_sentiment` delegates to TextBlob, and `detect_urgent_keywords`
counts regex whole-word matches of the urgent-keyword list; both are
external to the scoring logic and are abstracted as the parameters
`polarity`, `subjectivity` and `urgent_count` below. -/

/-- The fixed priority set checked by `determine_priority`, in source
order. -/
def priorityNames : List String := ["High", "Medium", "Low"]

/-- `SentimentAnalyzer.calculate_urgency_score` on the TextBlob outputs
and the urgent-keyword count:
`min(max(0, -polarity) + min(urgent_count*0.15, 0.5) + subjectivity*0.2, 1.0)`. -/
def calculate_urgency_score (polarity subjectivity : ℚ)
    (urgent_count : ℕ) : ℚ :=
  let sentiment_urgency := max 0 (-polarity)
  let keyword_boost := min ((urgent_count : ℚ) * (15/100)) (1/2)
  let subjectivity_factor := subjectivity * (2/10)
  min (sentiment_urgency + keyword_boost + subjectivity_factor) 1

/-- The inference path of `SentimentAnalyzer.determine_priority`:
urgency ≥ 0.6 → High, ≥ 0.3 → Medium, else Low. -/
def determine_priority_auto (polarity subjectivity : ℚ)
    (urgent_count : ℕ) : String :=
  let urgency := calculate_urgency_score polarity subjectivity urgent_count
  if 6/10 ≤ urgency then "High"
  else if 3/10 ≤ urgency then "Medium"
  else "Low"

/-- `SentimentAnalyzer.determine_priority`: a manual priority in
`{High, Medium, Low}` is used unconditionally; anything else (including
`None` and the falsy empty string, which is not in the list anyway) falls
through to the inference path. -/
def determine_priority (polarity subjectivity : ℚ) (urgent_count : ℕ)
    (manual_priority : Option String) : String :=
  match manual_priority with
  | some mp =>
      if mp ∈ priorityNames then mp
      else determine_priority_auto polarity subjectivity urgent_count
  | none => determine_priority_auto polarity subjectivity urgent_count

/-! ### Predictor (`ai_module/predictor.py`) -/

/-- Python `int(x)`: truncation toward zero. -/
def int_trunc (q : ℚ) : ℤ := if 0 ≤ q then ⌊q⌋ else ⌈q⌉

/-- Python `round` to the nearest integer: banker's rounding
(ties go to the even integer). -/
def round_half_even (q : ℚ) : ℤ :=
  if q - ⌊q⌋ = 1/2 then (if 2 ∣ ⌊q⌋ then ⌊q⌋ else ⌊q⌋ + 1)
  else ⌊q + 1/2⌋

/-- Python `round(x, 1)`: banker's rounding to one decimal place. -/
def round1 (q : ℚ) : ℚ := (round_half_even (q * 10) : ℚ) / 10

/-- `ResolutionTimePredictor.category_avg_times`, in declaration order
(hours). -/
def category_avg_times : List (String × ℕ) :=
  [("IT Issues", 24), ("Hostel Management", 48), ("Academics", 72),
   ("Administration", 96), ("Library", 48), ("Sports & Recreation", 72),
   ("Other", 120)]

/-- `ResolutionTimePredictor.priority_multipliers`. -/
def priority_multipliers : List (String × ℚ) :=
  [("High", 1/2), ("Medium", 1), ("Low", 3/2)]

/-- `self.category_avg_times.get(category, 72)`. -/
def base_time (category : String) : ℕ :=
  (category_avg_times.lookup category).getD 72

/-- `self.priority_multipliers.get(priority, 1.0)`. -/
def priority_mult (priority : String) : ℚ :=
  (priority_multipliers.lookup priority).getD 1

/-- Result record of `predict_resolution_time`. -/
structure ResolutionPrediction where
  hours : ℤ
  days : ℚ
  category_avg : ℕ
  priority_factor : ℚ
  confidence : ℚ
deriving DecidableEq

/-- `ResolutionTimePredictor.predict_resolution_time`: the current
`workload_factor` is passed explicitly, the `random.uniform(0.8, 1.2)`
draw is the `variance` parameter, and `description` is accepted but
unused, as in the source. -/
def predict_resolution_time (workload_factor : ℚ) (variance : ℚ)
    (category priority : String) (description : Option String) :
    ResolutionPrediction :=
  let bt := base_time category
  let pm := priority_mult priority
  let predicted0 : ℚ := (bt : ℚ) * pm * workload_factor
  let predicted_hours : ℤ := max (int_trunc (predicted0 * variance)) 1
  let predicted_days : ℚ := round1 ((predicted_hours : ℚ) / 24)
  { hours := predicted_hours, days := predicted_days, category_avg := bt,
    priority_factor := pm, confidence := 3/4 }

/-- `ResolutionTimePredictor.update_workload_factor` as a pure step
function from the pending-complaint count to the new factor. -/
def update_workload_factor (pending_count : ℤ) : ℚ :=
  if pending_count < 10 then 9/10
  else if pending_count < 20 then 1
  else if pending_count < 50 then 12/10
  else 15/10

/-- A historical complaint record as consumed by
`get_category_statistics`; `none` models a missing key (`dict.get`). -/
structure Complaint where
  category : Option String
  status : Option String
  resolution_time : Option ℚ
deriving DecidableEq

/-- Python truthiness of `c.get('resolution_time')`: missing and `0` are
falsy. -/
def rt_truthy : Option ℚ → Bool
  | none => false
  | some q => decide (q ≠ 0)

/-- The filter `c.get('status') == 'Resolved' and c.get('resolution_time')`. -/
def is_resolved (c : Complaint) : Bool :=
  c.status == some "Resolved" && rt_truthy c.resolution_time

/-- One per-category entry of the statistics result. -/
structure CategoryStats where
  total_complaints : ℕ
  resolved : ℕ
  avg_resolution_hours : ℚ
  avg_resolution_days : ℚ
deriving DecidableEq

/-- The per-category body of
`ResolutionTimePredictor.get_category_statistics`. -/
def category_stat (data : List Complaint) (category : String) (base : ℕ) :
    CategoryStats :=
  let category_complaints := data.filter (fun c => c.category == some category)
  if category_complaints.isEmpty then
    { total_complaints := 0, resolved := 0,
      avg_resolution_hours := (base : ℚ),
      avg_resolution_days := round1 ((base : ℚ) / 24) }
  else
    let resolved := category_complaints.filter is_resolved
    let avg_time : ℚ :=
      if resolved.isEmpty then (base : ℚ)
      else (resolved.map (fun c => c.resolution_time.getD 0)).sum
        / (resolved.length : ℚ)
    { total_complaints := category_complaints.length,
      resolved := resolved.length,
      avg_resolution_hours := round1 avg_time,
      avg_resolution_days := round1 (avg_time / 24) }

/-- `ResolutionTimePredictor.get_category_statistics`: one entry per
fixed category, in declaration order. -/
def get_category_statistics (data : List Complaint) :
    List (String × CategoryStats) :=
  category_avg_times.map (fun p => (p.1, category_stat data p.1 p.2))

/-! ### Helper lemmas -/

/-- Banker's rounding fixes integers. -/
theorem round_half_even_intCast (m : ℤ) : round_half_even (m : ℚ) = m := by
  unfold round_half_even
  rw [Int.floor_intCast]
  rw [if_neg (by norm_num)]
  rw [add_comm, Int.floor_add_int]
  norm_num [Int.floor_eq_zero_iff, Set.mem_Ico]

/-- `round1` fixes natural numbers (needed for the statistics baseline). -/
theorem round1_natCast (n : ℕ) : round1 ((n : ℕ) : ℚ) = n := by
  unfold round1
  have h : ((n : ℚ) * 10) = ((n * 10 : ℤ) : ℚ) := by push_cast; ring
  rw [h, round_half_even_intCast]
  push_cast
  ring

/-! ### Claim C1 -/

/-- Claim C1: for every workload factor, category, priority, optional
description and variance draw in `[0.8, 1.2]`, the prediction's hours are
at least 1 and its days are exactly `round1 (hours / 24)`; in particular
for category "IT Issues", priority "High" and workload factor 1.0 the
hours lie in `[9, 14]`. -/
theorem predict_resolution_time_spec (wf v : ℚ) (cat prio : String)
    (d : Option String) (h1 : 8/10 ≤ v) (h2 : v ≤ 12/10) :
    1 ≤ (predict_resolution_time wf v cat prio d).hours ∧
    (predict_resolution_time wf v cat prio d).days
      = round1 (((predict_resolution_time wf v cat prio d).hours : ℚ) / 24) ∧
    9 ≤ (predict_resolution_time 1 v "IT Issues" "High" d).hours ∧
    (predict_resolution_time 1 v "IT Issues" "High" d).hours ≤ 14 := by
  have hb : base_time "IT Issues" = 24 := rfl
  have hm : priority_mult "High" = 1/2 := rfl
  have hprod : (base_time "IT Issues" : ℚ) * priority_mult "High" * 1 * v
      = 12 * v := by
    rw [hb, hm]; push_cast; ring
  have hnn : (0 : ℚ) ≤ 12 * v := by linarith
  have htr : int_trunc (12 * v) = ⌊12 * v⌋ := if_pos hnn
  have hlow : (9 : ℤ) ≤ ⌊12 * v⌋ := by
    rw [Int.le_floor]
    push_cast
    linarith
  have hhigh : ⌊12 * v⌋ ≤ (14 : ℤ) := by
    have hle : ((⌊12 * v⌋ : ℤ) : ℚ) ≤ 12 * v := Int.floor_le _
    have hlt : ((⌊12 * v⌋ : ℤ) : ℚ) < 15 := by linarith
    have : (⌊12 * v⌋ : ℤ) < 15 := by exact_mod_cast hlt
    omega
  refine ⟨?_, rfl, ?_, ?_⟩
  · simp only [predict_resolution_time]
    exact le_max_right _ _
  · simp only [predict_resolution_time, hprod, htr]
    exact le_trans hlow (le_max_left _ _)
  · simp only [predict_resolution_time, hprod, htr]
    exact max_le hhigh (by norm_num)

/-- Witness for C1 at variance 1. -/
theorem predict_resolution_time_spec_witness :
    1 ≤ (predict_resolution_time 1 1 "IT Issues" "High" none).hours ∧
    (predict_resolution_time 1 1 "IT Issues" "High" none).days
      = round1 (((predict_resolution_time 1 1 "IT Issues" "High" none).hours : ℚ) / 24) ∧
    9 ≤ (predict_resolution_time 1 1 "IT Issues" "High" none).hours ∧
    (predict_resolution_time 1 1 "IT Issues" "High" none).hours ≤ 14 :=
  predict_resolution_time_spec 1 1 "IT Issues" "High" none
    (by norm_num) (by norm_num)

/-! ### Claim C2 -/

/-- Claim C2: for all sentiment outputs (with the library invariant
`0 ≤ subjectivity`) and urgent-keyword counts, the urgency score equals
`min(max(0,-polarity) + min(count*0.15, 0.5) + subjectivity*0.2, 1)`,
lies in `[0, 1]`, and with no manual override the priority is "High" iff
the urgency is ≥ 0.6, "Medium" iff it is in `[0.3, 0.6)`, and "Low"
otherwise. -/
theorem urgency_priority_spec (p s : ℚ) (c : ℕ) (hs : 0 ≤ s) :
    calculate_urgency_score p s c
      = min (max 0 (-p) + min ((c : ℚ) * (15/100)) (1/2) + s * (2/10)) 1 ∧
    0 ≤ calculate_urgency_score p s c ∧
    calculate_urgency_score p s c ≤ 1 ∧
    (determine_priority p s c none = "High" ↔
      6/10 ≤ calculate_urgency_score p s c) ∧
    (determine_priority p s c none = "Medium" ↔
      3/10 ≤ calculate_urgency_score p s c ∧
        calculate_urgency_score p s c < 6/10) ∧
    (determine_priority p s c none = "Low" ↔
      calculate_urgency_score p s c < 3/10) := by
  have hform : calculate_urgency_score p s c
      = min (max 0 (-p) + min ((c : ℚ) * (15/100)) (1/2) + s * (2/10)) 1 := rfl
  have h0 : 0 ≤ calculate_urgency_score p s c := by
    rw [hform]
    have ha : (0 : ℚ) ≤ max 0 (-p) := le_max_left _ _
    have hb : (0 : ℚ) ≤ min ((c : ℚ) * (15/100)) (1/2) :=
      le_min (by positivity) (by norm_num)
    have hc : (0 : ℚ) ≤ s * (2/10) := mul_nonneg hs (by norm_num)
    exact le_min (by linarith) (by norm_num)
  have h1 : calculate_urgency_score p s c ≤ 1 := by
    rw [hform]; exact min_le_right _ _
  have hauto : determine_priority p s c none
      = (if 6/10 ≤ calculate_urgency_score p s c then "High"
         else if 3/10 ≤ calculate_urgency_score p s c then "Medium"
         else "Low") := rfl
  refine ⟨hform, h0, h1, ?_, ?_, ?_⟩ <;> rw [hauto] <;> split_ifs with ha hb
  · exact iff_of_true rfl ha
  · exact iff_of_false (by decide) ha
  · exact iff_of_false (by decide) ha
  · exact iff_of_false (by decide) (fun hx => absurd hx.2 (not_lt.mpr ha))
  · exact iff_of_true rfl ⟨hb, lt_of_not_ge ha⟩
  · exact iff_of_false (by decide) (fun hx => absurd hx.1 hb)
  · exact iff_of_false (by decide) (not_lt.mpr (by linarith))
  · exact iff_of_false (by decide) (not_lt.mpr hb)
  · exact iff_of_true rfl (lt_of_not_ge hb)

/-- Witness for C2 at polarity -1, subjectivity 1/2, three urgent
keywords. -/
theorem urgency_priority_spec_witness :
    calculate_urgency_score (-1) (1/2) 3
      = min (max 0 (-(-1)) + min ((3 : ℚ) * (15/100)) (1/2) + (1/2) * (2/10)) 1 ∧
    0 ≤ calculate_urgency_score (-1) (1/2) 3 ∧
    calculate_urgency_score (-1) (1/2) 3 ≤ 1 ∧
    (determine_priority (-1) (1/2) 3 none = "High" ↔
      6/10 ≤ calculate_urgency_score (-1) (1/2) 3) ∧
    (determine_priority (-1) (1/2) 3 none = "Medium" ↔
      3/10 ≤ calculate_urgency_score (-1) (1/2) 3 ∧
        calculate_urgency_score (-1) (1/2) 3 < 6/10) ∧
    (determine_priority (-1) (1/2) 3 none = "Low" ↔
      calculate_urgency_score (-1) (1/2) 3 < 3/10) :=
  urgency_priority_spec (-1) (1/2) 3 (by norm_num)

/-! ### Claim C7 -/

/-- Claim C7: the workload update is the step function
<10 → 0.9, <20 → 1.0, <50 → 1.2, else 1.5, and a prediction made with the
updated factor multiplies exactly `base * mult * factor` (times the
variance draw) before truncation.  Predictions are pure values of the
factor in force when they were made, so updating the factor afterwards
cannot change them (state-passing embedding). -/
theorem update_workload_factor_spec (n : ℤ) (v : ℚ) (cat prio : String)
    (d : Option String) :
    (n < 10 → update_workload_factor n = 9/10) ∧
    (10 ≤ n → n < 20 → update_workload_factor n = 1) ∧
    (20 ≤ n → n < 50 → update_workload_factor n = 12/10) ∧
    (50 ≤ n → update_workload_factor n = 15/10) ∧
    (predict_resolution_time (update_workload_factor n) v cat prio d).hours
      = max (int_trunc ((base_time cat : ℚ) * priority_mult prio
          * update_workload_factor n * v)) 1 := by
  refine ⟨fun h => ?_, fun h1 h2 => ?_, fun h1 h2 => ?_, fun h => ?_, rfl⟩
  · rw [update_workload_factor, if_pos h]
  · rw [update_workload_factor, if_neg (by omega), if_pos h2]
  · rw [update_workload_factor, if_neg (by omega), if_neg (by omega),
      if_pos h2]
  · rw [update_workload_factor, if_neg (by omega), if_neg (by omega),
      if_neg (by omega)]

/-- Witness for C7: all four steps at concrete counts, and the hours
formula of a prediction made with the updated factor. -/
theorem update_workload_factor_spec_witness :
    update_workload_factor 5 = 9/10 ∧
    update_workload_factor 15 = 1 ∧
    update_workload_factor 30 = 12/10 ∧
    update_workload_factor 60 = 15/10 ∧
    (predict_resolution_time (update_workload_factor 5) 1 "IT Issues"
        "High" none).hours
      = max (int_trunc ((base_time "IT Issues" : ℚ) * priority_mult "High"
          * update_workload_factor 5 * 1)) 1 :=
  ⟨(update_workload_factor_spec 5 1 "IT Issues" "High" none).1 (by decide),
   (update_workload_factor_spec 15 1 "IT Issues" "High" none).2.1
     (by decide) (by decide),
   (update_workload_factor_spec 30 1 "IT Issues" "High" none).2.2.1
     (by decide) (by decide),
   (update_workload_factor_spec 60 1 "IT Issues" "High" none).2.2.2.1
     (by decide),
   (update_workload_factor_spec 5 1 "IT Issues" "High" none).2.2.2.2⟩

/-! ### Claim C8 -/

/-- Claim C8: a manual category outside the fixed category set, or a
manual priority outside {High, Medium, Low}, is silently ignored: the
result is exactly the one obtained with no override at all (both
functions are total, so nothing is raised). -/
theorem invalid_override_ignored_spec :
    (∀ (stem : String → String) (tokens : List String) (mc : String),
      mc ∉ categoryNames →
      categorize stem tokens (some mc) = categorize stem tokens none) ∧
    (∀ (p s : ℚ) (c : ℕ) (mp : String),
      mp ∉ priorityNames →
      determine_priority p s c (some mp) = determine_priority p s c none) := by
  constructor
  · intro stem tokens mc h
    simp [categorize, h]
  · intro p s c mp h
    simp [determine_priority, h]

/-- Witness for C8 at the invalid values "Bogus" and "Urgent". -/
theorem invalid_override_ignored_spec_witness :
    categorize (fun t => t) ["wifi"] (some "Bogus")
      = categorize (fun t => t) ["wifi"] none ∧
    determine_priority 0 (1/2) 2 (some "Urgent")
      = determine_priority 0 (1/2) 2 none :=
  ⟨invalid_override_ignored_spec.1 (fun t => t) ["wifi"] "Bogus" (by decide),
   invalid_override_ignored_spec.2 0 (1/2) 2 "Urgent" (by decide)⟩

/-! ### Claims C3 and C4 -/

/-- The inference-path confidence is always in `[0, 0.99]`. -/
theorem categorize_auto_conf_bounds (stem : String → String)
    (tokens : List String) :
    0 ≤ (categorize_auto stem tokens).2 ∧
    (categorize_auto stem tokens).2 ≤ 99/100 := by
  simp only [categorize_auto]
  by_cases hM : py_max_nat ((calculate_category_scores stem tokens).map
      Prod.snd) = 0
  · rw [if_pos hM]
    norm_num
  · rw [if_neg hM]
    constructor
    · refine le_min ?_ (by norm_num)
      split_ifs with ht
      · positivity
      · norm_num
    · exact min_le_right _ _

/-- Claim C3: every confidence returned by `categorize` lies in
`[0, 0.99]`, and a manual category belonging to the fixed category set is
returned verbatim with confidence exactly `0.95`, bypassing the text
analysis. -/
theorem categorize_confidence_spec (stem : String → String)
    (tokens : List String) (manual : Option String) :
    (0 ≤ (categorize stem tokens manual).2 ∧
     (categorize stem tokens manual).2 ≤ 99/100) ∧
    ∀ mc ∈ categoryNames, categorize stem tokens (some mc) = (mc, 95/100) := by
  constructor
  · cases manual with
    | none => exact categorize_auto_conf_bounds stem tokens
    | some mc =>
      by_cases h : mc ∈ categoryNames
      · simp only [categorize, if_pos h]
        norm_num
      · simp only [categorize, if_neg h]
        exact categorize_auto_conf_bounds stem tokens
  · intro mc h
    simp only [categorize, if_pos h]

/-- Witness for C3: confidence bounds on a concrete call, and the
manual override "Library". -/
theorem categorize_confidence_spec_witness :
    (0 ≤ (categorize (fun t => t) ["wifi"] none).2 ∧
     (categorize (fun t => t) ["wifi"] none).2 ≤ 99/100) ∧
    categorize (fun t => t) ["wifi"] (some "Library") = ("Library", 95/100) :=
  ⟨(categorize_confidence_spec (fun t => t) ["wifi"] none).1,
   (categorize_confidence_spec (fun t => t) ["wifi"] none).2 "Library"
     (by decide)⟩

/-- A left fold of `Nat.max` over a list of zeros returns its seed. -/
theorem foldl_max_zeros (a : ℕ) (l : List ℕ) (h : ∀ x ∈ l, x = 0) :
    l.foldl Nat.max a = a := by
  induction l generalizing a with
  | nil => rfl
  | cons y ys ih =>
    have hy : y = 0 := h y (by simp)
    have hm : Nat.max a 0 = a := by simp [Nat.max]
    rw [List.foldl_cons, hy, hm]
    exact ih a (fun x hx => h x (by simp [hx]))

/-- Python `max` of a list of zeros is zero. -/
theorem py_max_nat_zeros (l : List ℕ) (h : ∀ x ∈ l, x = 0) :
    py_max_nat l = 0 := by
  cases l with
  | nil => rfl
  | cons x xs =>
    have hx : x = 0 := h x (by simp)
    simp only [py_max_nat]
    rw [foldl_max_zeros x xs (fun y hy => h y (by simp [hy])), hx]

/-- Claim C4: when every category's match count is zero (in particular
for an empty token sequence), `categorize` with no override returns
exactly `("Other", 0.5)`; the function is total, so no error can be
raised. -/
theorem categorize_no_match_spec (stem : String → String)
    (tokens : List String)
    (h : ∀ q ∈ calculate_category_scores stem tokens, q.2 = 0) :
    categorize stem tokens none = ("Other", 1/2) := by
  have hM : py_max_nat ((calculate_category_scores stem tokens).map
      Prod.snd) = 0 := by
    refine py_max_nat_zeros _ (fun x hx => ?_)
    rcases List.mem_map.mp hx with ⟨q, hq, rfl⟩
    exact h q hq
  show categorize_auto stem tokens = _
  simp only [categorize_auto]
  rw [if_pos hM]

/-- Witness for C4: the empty token sequence. -/
theorem categorize_no_match_spec_witness :
    categorize (fun t => t) [] none = ("Other", 1/2) :=
  categorize_no_match_spec (fun t => t) [] (by decide)

/-! ### Claims C9 and C10 -/

/-- Composing the category filter with the resolved filter gives a single
filter by the conjunction. -/
theorem filter_category_resolved (data : List Complaint) (cat : String) :
    (data.filter (fun c => c.category == some cat)).filter is_resolved
      = data.filter (fun c => c.category == some cat && is_resolved c) := by
  rw [List.filter_filter]
  exact List.filter_congr (fun c _ => by rw [Bool.and_comm])

/-- Claim C9: the statistics report one entry per fixed category (in
declaration order); for each category the total is the number of records
whose category matches, the hour average is the 1-decimal-rounded mean
resolution time of the matching records counted as resolved (falling back
to the static baseline when there are none), and the day average is the
hour average divided by 24, rounded to 1 decimal. -/
theorem category_statistics_spec (data : List Complaint) (cat : String)
    (base : ℕ) :
    ((get_category_statistics data).map Prod.fst = categoryNames) ∧
    ((category_stat data cat base).total_complaints
      = data.countP (fun c => c.category == some cat)) ∧
    ((category_stat data cat base).avg_resolution_hours
      = if (data.filter (fun c => c.category == some cat && is_resolved c)).isEmpty
        then (base : ℚ)
        else round1 (((data.filter (fun c => c.category == some cat
              && is_resolved c)).map (fun c => c.resolution_time.getD 0)).sum
          / ((data.filter (fun c => c.category == some cat
              && is_resolved c)).length : ℚ))) ∧
    ((category_stat data cat base).avg_resolution_days
      = round1 ((if (data.filter (fun c => c.category == some cat
            && is_resolved c)).isEmpty
        then (base : ℚ)
        else ((data.filter (fun c => c.category == some cat
              && is_resolved c)).map (fun c => c.resolution_time.getD 0)).sum
          / ((data.filter (fun c => c.category == some cat
              && is_resolved c)).length : ℚ)) / 24)) := by
  have hmap : (get_category_statistics data).map Prod.fst = categoryNames := by
    simp [get_category_statistics, category_avg_times, categoryNames,
      category_keywords]
  refine ⟨hmap, ?_⟩
  by_cases hce : (data.filter (fun c => c.category == some cat)).isEmpty
  · have hnil : data.filter (fun c => c.category == some cat) = [] :=
      List.isEmpty_iff.mp hce
    have hrs0 : data.filter (fun c => c.category == some cat
        && is_resolved c) = [] := by
      rw [← filter_category_resolved, hnil]
      rfl
    have hA : category_stat data cat base
        = { total_complaints := 0, resolved := 0,
            avg_resolution_hours := (base : ℚ),
            avg_resolution_days := round1 ((base : ℚ) / 24) } := by
      simp only [category_stat]
      rw [if_pos hce]
    refine ⟨?_, ?_, ?_⟩
    · rw [hA, List.countP_eq_length_filter, hnil]
      rfl
    · rw [hA, hrs0]
      rfl
    · rw [hA, hrs0]
      rfl
  · by_cases hre : ((data.filter (fun c => c.category == some cat)).filter
        is_resolved).isEmpty
    · have hrs0 : data.filter (fun c => c.category == some cat
          && is_resolved c) = [] := by
        rw [← filter_category_resolved]
        exact List.isEmpty_iff.mp hre
      have hB : category_stat data cat base
          = { total_complaints :=
                (data.filter (fun c => c.category == some cat)).length,
              resolved := ((data.filter (fun c => c.category == some cat)).filter
                is_resolved).length,
              avg_resolution_hours := round1 ((base : ℚ)),
              avg_resolution_days := round1 ((base : ℚ) / 24) } := by
        simp only [category_stat]
        rw [if_neg hce, if_pos hre]
      refine ⟨?_, ?_, ?_⟩
      · rw [hB, List.countP_eq_length_filter]
      · rw [hB, hrs0]
        show round1 ((base : ℚ)) = (base : ℚ)
        exact round1_natCast base
      · rw [hB, hrs0]
        rfl
    · have hC : category_stat data cat base
          = { total_complaints :=
                (data.filter (fun c => c.category == some cat)).length,
              resolved := ((data.filter (fun c => c.category == some cat)).filter
                is_resolved).length,
              avg_resolution_hours := round1
                ((((data.filter (fun c => c.category == some cat)).filter
                    is_resolved).map (fun c => c.resolution_time.getD 0)).sum
                  / (((data.filter (fun c => c.category == some cat)).filter
                    is_resolved).length : ℚ)),
              avg_resolution_days := round1
                (((((data.filter (fun c => c.category == some cat)).filter
                    is_resolved).map (fun c => c.resolution_time.getD 0)).sum
                  / (((data.filter (fun c => c.category == some cat)).filter
                    is_resolved).length : ℚ)) / 24) } := by
        simp only [category_stat]
        rw [if_neg hce, if_neg hre]
      have hrsne : ¬ (data.filter (fun c => c.category == some cat
          && is_resolved c)).isEmpty = true := by
        rw [← filter_category_resolved]
        exact hre
      refine ⟨?_, ?_, ?_⟩
      · rw [hC, List.countP_eq_length_filter]
      · rw [hC, if_neg hrsne, ← filter_category_resolved]
      · rw [hC, if_neg hrsne, ← filter_category_resolved]

/-- Claim C10: a record counts as resolved only when its status is
"Resolved" and its resolution time is truthy (present and nonzero);
the reported resolved count is the count of such records, which at the
concrete history below (statuses all "Resolved", resolution times 0,
missing, and 5) is 1, strictly fewer than the 3 records whose status is
"Resolved". -/
theorem resolved_count_spec :
    (∀ (data : List Complaint) (cat : String) (base : ℕ),
      (category_stat data cat base).resolved
        = data.countP (fun c => c.category == some cat && is_resolved c)) ∧
    (category_stat
        [⟨some "IT Issues", some "Resolved", some 0⟩,
         ⟨some "IT Issues", some "Resolved", none⟩,
         ⟨some "IT Issues", some "Resolved", some 5⟩] "IT Issues" 24).resolved
      = 1 ∧
    List.countP (fun c => c.status == some "Resolved")
        ([⟨some "IT Issues", some "Resolved", some 0⟩,
          ⟨some "IT Issues", some "Resolved", none⟩,
          ⟨some "IT Issues", some "Resolved", some 5⟩] : List Complaint) = 3 := by
  refine ⟨?_, by decide, by decide⟩
  intro data cat base
  by_cases hce : (data.filter (fun c => c.category == some cat)).isEmpty
  · have hnil : data.filter (fun c => c.category == some cat) = [] :=
      List.isEmpty_iff.mp hce
    have hrs0 : data.filter (fun c => c.category == some cat
        && is_resolved c) = [] := by
      rw [← filter_category_resolved, hnil]
      rfl
    have hA : (category_stat data cat base).resolved = 0 := by
      simp only [category_stat]
      rw [if_pos hce]
    rw [hA, List.countP_eq_length_filter, hrs0]
    rfl
  · have hB : (category_stat data cat base).resolved
        = ((data.filter (fun c => c.category == some cat)).filter
            is_resolved).length := by
      simp only [category_stat]
      rw [if_neg hce]
    rw [hB, List.countP_eq_length_filter, ← filter_category_resolved]

/-! ### Claim C5 -/

/-- `find?` skips a head that fails the (explicitly given) predicate. -/
theorem find?_cons_neg (P : String × ℕ → Bool) (z : String × ℕ)
    (zs : List (String × ℕ)) (h : ¬ P z = true) :
    (z :: zs).find? P = zs.find? P :=
  List.find?_cons_of_neg zs h

/-- `find?` stops at a head that satisfies the (explicitly given)
predicate. -/
theorem find?_cons_pos (P : String × ℕ → Bool) (z : String × ℕ)
    (zs : List (String × ℕ)) (h : P z = true) :
    (z :: zs).find? P = some z :=
  List.find?_cons_of_pos zs h

/-- The Python-`max` fold never decreases the running winner's score. -/
theorem foldl_pymax_snd_ge (a : String × ℕ) (l : List (String × ℕ)) :
    a.2 ≤ (l.foldl py_max_step a).2 := by
  induction l generalizing a with
  | nil => exact le_refl _
  | cons y ys ih =>
    rw [List.foldl_cons]
    refine le_trans ?_ (ih _)
    by_cases h : y.2 > a.2
    · rw [py_max_step, if_pos h]
      omega
    · rw [py_max_step, if_neg h]

/-- The Python-`max` fold computes the maximum of the scores. -/
theorem foldl_pymax_snd (a : String × ℕ) (l : List (String × ℕ)) :
    (l.foldl py_max_step a).2 = (l.map Prod.snd).foldl Nat.max a.2 := by
  induction l generalizing a with
  | nil => rfl
  | cons y ys ih =>
    rw [List.foldl_cons, List.map_cons, List.foldl_cons, ih]
    congr 1
    by_cases h : y.2 > a.2 <;> simp [py_max_step, Nat.max, h] <;> omega

/-- The winner of the Python-`max` fold is the first element whose score
equals the winning score. -/
theorem foldl_pymax_find (a : String × ℕ) (l : List (String × ℕ)) :
    (a :: l).find? (fun q => q.2 == (l.foldl py_max_step a).2)
      = some (l.foldl py_max_step a) := by
  induction l generalizing a with
  | nil => simp [List.find?]
  | cons y ys ih =>
    rw [List.foldl_cons]
    by_cases h : y.2 > a.2
    · rw [py_max_step, if_pos h]
      have hge : y.2 ≤ (ys.foldl py_max_step y).2 := foldl_pymax_snd_ge y ys
      have hne : ¬ a.2 = (ys.foldl py_max_step y).2 := by omega
      rw [find?_cons_neg (fun q => q.2 == (ys.foldl py_max_step y).2) a
        (y :: ys) (by simpa using hne)]
      exact ih y
    · rw [py_max_step, if_neg h]
      have hae : a.2 ≤ (ys.foldl py_max_step a).2 := foldl_pymax_snd_ge a ys
      by_cases hpa : a.2 = (ys.foldl py_max_step a).2
      · rw [find?_cons_pos (fun q => q.2 == (ys.foldl py_max_step a).2) a
          (y :: ys) (by simpa using hpa)]
        have h2 := ih a
        rw [find?_cons_pos (fun q => q.2 == (ys.foldl py_max_step a).2) a
          ys (by simpa using hpa)] at h2
        exact h2
      · have hy : ¬ y.2 = (ys.foldl py_max_step a).2 := by omega
        rw [find?_cons_neg (fun q => q.2 == (ys.foldl py_max_step a).2) a
            (y :: ys) (by simpa using hpa),
          find?_cons_neg (fun q => q.2 == (ys.foldl py_max_step a).2) y
            ys (by simpa using hy)]
        have h2 := ih a
        rw [find?_cons_neg (fun q => q.2 == (ys.foldl py_max_step a).2) a
          ys (by simpa using hpa)] at h2
        exact h2

/-- Claim C5: with at least one keyword match and no manual override,
`categorize` returns the category with the maximal match count, breaking
ties by declaration order: the returned category paired with the maximal
score is the first score entry attaining the maximum, and the score list
is indexed by the categories in declaration order. -/
theorem categorize_argmax_spec (stem : String → String) (tokens : List String)
    (h : py_max_nat ((calculate_category_scores stem tokens).map Prod.snd)
      ≠ 0) :
    ((calculate_category_scores stem tokens).map Prod.fst = categoryNames) ∧
    (calculate_category_scores stem tokens).find? (fun q =>
        q.2 == py_max_nat ((calculate_category_scores stem tokens).map
          Prod.snd))
      = some ((categorize stem tokens none).1,
          py_max_nat ((calculate_category_scores stem tokens).map Prod.snd)) := by
  constructor
  · simp [calculate_category_scores, categoryNames, category_keywords]
  · rcases hsc : calculate_category_scores stem tokens with _ | ⟨a, l⟩
    · exact absurd (by rw [hsc]; rfl) h
    · rw [hsc] at h
      have hM : py_max_nat (((a :: l) : List (String × ℕ)).map Prod.snd)
          = (l.foldl py_max_step a).2 := by
        rw [List.map_cons]
        show (l.map Prod.snd).foldl Nat.max a.2 = _
        exact (foldl_pymax_snd a l).symm
      have hbest : (categorize stem tokens none).1
          = (l.foldl py_max_step a).1 := by
        show (categorize_auto stem tokens).1 = _
        simp only [categorize_auto]
        rw [hsc, if_neg h]
        rfl
      rw [hM, hbest, Prod.mk.eta]
      exact foldl_pymax_find a l

/-- Witness for C5: one matching token (every keyword stems to "wifi"
here, so "IT Issues" and five other substantive categories tie at score 1
and the first one wins). -/
theorem categorize_argmax_spec_witness :
    ((calculate_category_scores (fun _ => "wifi") ["wifi"]).map Prod.fst
      = categoryNames) ∧
    (calculate_category_scores (fun _ => "wifi") ["wifi"]).find? (fun q =>
        q.2 == py_max_nat ((calculate_category_scores (fun _ => "wifi")
          ["wifi"]).map Prod.snd))
      = some ((categorize (fun _ => "wifi") ["wifi"] none).1,
          py_max_nat ((calculate_category_scores (fun _ => "wifi")
            ["wifi"]).map Prod.snd)) :=
  categorize_argmax_spec (fun _ => "wifi") ["wifi"] (by decide)

/-! ### Claim C6 -/

/-- Elements of an insertion are the inserted element or old elements. -/
theorem mem_insertDesc (z x : String × ℕ) (l : List (String × ℕ))
    (h : z ∈ insertDesc x l) : z = x ∨ z ∈ l := by
  induction l with
  | nil =>
    simp only [insertDesc, List.mem_singleton] at h
    exact Or.inl h
  | cons y ys ih =>
    rw [insertDesc] at h
    by_cases hc : y.2 > x.2
    · rw [if_pos hc] at h
      rcases List.mem_cons.mp h with h1 | h2
      · exact Or.inr (by simp [h1])
      · rcases ih h2 with h3 | h4
        · exact Or.inl h3
        · exact Or.inr (by simp [h4])
    · rw [if_neg hc] at h
      rcases List.mem_cons.mp h with h1 | h2
      · exact Or.inl h1
      · exact Or.inr h2

/-- Inserting into a descending-sorted list keeps it descending. -/
theorem insertDesc_sorted (x : String × ℕ) (l : List (String × ℕ))
    (h : l.Pairwise (fun a b => b.2 ≤ a.2)) :
    (insertDesc x l).Pairwise (fun a b => b.2 ≤ a.2) := by
  induction l with
  | nil => simp [insertDesc]
  | cons y ys ih =>
    rw [insertDesc]
    rcases List.pairwise_cons.mp h with ⟨hy, hys⟩
    by_cases hc : y.2 > x.2
    · rw [if_pos hc]
      refine List.pairwise_cons.mpr ⟨?_, ih hys⟩
      intro z hz
      rcases mem_insertDesc z x ys hz with rfl | hzys
      · exact le_of_lt hc
      · exact hy z hzys
    · rw [if_neg hc]
      refine List.pairwise_cons.mpr ⟨?_, h⟩
      intro z hz
      rcases List.mem_cons.mp hz with rfl | hzys
      · exact Nat.le_of_not_lt hc
      · exact le_trans (hy z hzys) (Nat.le_of_not_lt hc)

/-- The stable sort is descending in the score component. -/
theorem sortDesc_sorted (l : List (String × ℕ)) :
    (sortDesc l).Pairwise (fun a b => b.2 ≤ a.2) := by
  induction l with
  | nil => simp [sortDesc]
  | cons x xs ih =>
    rw [sortDesc]
    exact insertDesc_sorted x _ ih

/-- Insertion is a permutation of consing. -/
theorem insertDesc_perm (x : String × ℕ) (l : List (String × ℕ)) :
    List.Perm (insertDesc x l) (x :: l) := by
  induction l with
  | nil => rw [insertDesc]
  | cons y ys ih =>
    rw [insertDesc]
    by_cases hc : y.2 > x.2
    · rw [if_pos hc]
      exact (ih.cons y).trans (List.Perm.swap x y ys)
    · rw [if_neg hc]

/-- The stable sort is a permutation of its input. -/
theorem sortDesc_perm (l : List (String × ℕ)) : List.Perm (sortDesc l) l := by
  induction l with
  | nil => rw [sortDesc]
  | cons x xs ih =>
    rw [sortDesc]
    exact (insertDesc_perm x (sortDesc xs)).trans (ih.cons x)

/-- Stability, inserted element matching: the inserted element lands in
front of every equal-scored element. -/
theorem filter_insertDesc_pos (v : ℕ) (x : String × ℕ) (hx : x.2 = v)
    (l : List (String × ℕ)) :
    (insertDesc x l).filter (fun q => q.2 == v)
      = x :: l.filter (fun q => q.2 == v) := by
  induction l with
  | nil =>
    simp only [insertDesc, List.filter_cons, List.filter_nil, beq_iff_eq, hx,
      if_true]
  | cons y ys ih =>
    rw [insertDesc]
    by_cases hc : y.2 > x.2
    · rw [if_pos hc]
      have hy : ¬ y.2 = v := by omega
      simp only [List.filter_cons]
      simp only [beq_iff_eq, hy, if_false, ih]
    · rw [if_neg hc]
      simp only [List.filter_cons]
      simp only [beq_iff_eq, hx, if_true]

/-- Stability, inserted element not matching: insertion does not disturb
the subsequence of elements with any other score. -/
theorem filter_insertDesc_neg (v : ℕ) (x : String × ℕ) (hx : ¬ x.2 = v)
    (l : List (String × ℕ)) :
    (insertDesc x l).filter (fun q => q.2 == v)
      = l.filter (fun q => q.2 == v) := by
  induction l with
  | nil =>
    simp only [insertDesc, List.filter_cons, List.filter_nil, beq_iff_eq, hx,
      if_false]
  | cons y ys ih =>
    rw [insertDesc]
    by_cases hc : y.2 > x.2
    · rw [if_pos hc]
      simp only [List.filter_cons, ih]
    · rw [if_neg hc]
      simp only [List.filter_cons]
      simp only [beq_iff_eq, hx, if_false]

/-- Stability of the sort: for every score value, the equal-scored
elements appear in the sorted list exactly in their original (declaration)
order. -/
theorem sortDesc_filter (l : List (String × ℕ)) (v : ℕ) :
    (sortDesc l).filter (fun q => q.2 == v) = l.filter (fun q => q.2 == v) := by
  induction l with
  | nil => rfl
  | cons x xs ih =>
    rw [sortDesc]
    by_cases hx : x.2 = v
    · rw [filter_insertDesc_pos v x hx, ih, List.filter_cons]
      simp [hx]
    · rw [filter_insertDesc_neg v x hx, ih, List.filter_cons]
      simp [hx]

/-- Summing mapped divisions is dividing the summed counts. -/
theorem sum_map_div (l : List (String × ℕ)) (t : ℚ) :
    (l.map (fun q => (q.2 : ℚ) / t)).sum = ((l.map Prod.snd).sum : ℚ) / t := by
  induction l with
  | nil => simp
  | cons x xs ih =>
    simp only [List.map_cons, List.sum_cons, ih]
    push_cast
    ring

/-- Counterexample to C6 as stated: for `top_n = -1` (Python slicing on a
negative stop drops only the last element), the suggestions list has 6
entries, which is not "at most top_n". -/
theorem get_category_suggestions_neg_top_n_cex :
    (get_category_suggestions (fun t => t) [] (-1)).length = 6 ∧
    ¬ (((get_category_suggestions (fun t => t) [] (-1)).length : ℤ) ≤ -1) := by
  constructor
  · decide
  · decide

/-- Claim C6 (amended to nonnegative `top_n`; Python's negative-slice
semantics falsify the length bound at `top_n = -1`): the suggestions are
at most `top_n` pairs, obtained by slicing the stably descending-sorted
score list and attaching confidence `count / total` (`0` when the total
is zero); the slice is descending in the raw counts, equal-count entries
stay in declaration order, and the returned confidences sum to at most
1. -/
theorem get_category_suggestions_spec (stem : String → String)
    (tokens : List String) (n : ℤ) (hn : 0 ≤ n) :
    (((get_category_suggestions stem tokens n).length : ℤ) ≤ n) ∧
    (get_category_suggestions stem tokens n
      = (pyslice n (sortDesc (calculate_category_scores stem tokens))).map
          (fun p => (p.1,
            if 0 < ((calculate_category_scores stem tokens).map Prod.snd).sum
            then (p.2 : ℚ)
              / ((((calculate_category_scores stem tokens).map Prod.snd).sum
                  : ℕ) : ℚ)
            else 0))) ∧
    ((pyslice n (sortDesc (calculate_category_scores stem tokens))).Pairwise
      (fun a b => b.2 ≤ a.2)) ∧
    (∀ v : ℕ, (sortDesc (calculate_category_scores stem tokens)).filter
        (fun q => q.2 == v)
      = (calculate_category_scores stem tokens).filter (fun q => q.2 == v)) ∧
    (((get_category_suggestions stem tokens n).map Prod.snd).sum ≤ 1) ∧
    (((calculate_category_scores stem tokens).map Prod.snd).sum = 0 →
      ∀ q ∈ get_category_suggestions stem tokens n, q.2 = 0) := by
  have hslice : pyslice n (sortDesc (calculate_category_scores stem tokens))
      = (sortDesc (calculate_category_scores stem tokens)).take n.toNat :=
    if_pos hn
  refine ⟨?_, rfl, ?_, ?_, ?_, ?_⟩
  · rw [get_category_suggestions, List.length_map, hslice]
    have := List.length_take_le n.toNat
      (sortDesc (calculate_category_scores stem tokens))
    omega
  · rw [hslice]
    exact (sortDesc_sorted (calculate_category_scores stem tokens)).sublist
      (List.take_sublist _ _)
  · exact sortDesc_filter (calculate_category_scores stem tokens)
  · by_cases ht :
      0 < ((calculate_category_scores stem tokens).map Prod.snd).sum
    · have hcong : get_category_suggestions stem tokens n
          = (pyslice n (sortDesc (calculate_category_scores stem
              tokens))).map (fun p => (p.1, (p.2 : ℚ)
            / ((((calculate_category_scores stem tokens).map Prod.snd).sum
                : ℕ) : ℚ))) := by
        rw [get_category_suggestions]
        exact List.map_congr_left (fun p _ => by rw [if_pos ht])
      rw [hcong, List.map_map]
      have hcomp : (Prod.snd ∘ fun p : String × ℕ => ((p.1 : String),
          (p.2 : ℚ) / ((((calculate_category_scores stem tokens).map
            Prod.snd).sum : ℕ) : ℚ)))
          = fun p : String × ℕ => (p.2 : ℚ)
            / ((((calculate_category_scores stem tokens).map Prod.snd).sum
              : ℕ) : ℚ) := rfl
      rw [hcomp, sum_map_div]
      have hsub : ((pyslice n (sortDesc (calculate_category_scores stem
          tokens))).map Prod.snd).sum
          ≤ ((calculate_category_scores stem tokens).map Prod.snd).sum := by
        rw [hslice, List.map_take]
        have hperm : List.Perm ((sortDesc (calculate_category_scores stem
            tokens)).map Prod.snd)
            ((calculate_category_scores stem tokens).map Prod.snd) :=
          (sortDesc_perm (calculate_category_scores stem tokens)).map Prod.snd
        rw [← hperm.sum_eq]
        have := List.sum_take_add_sum_drop
          ((sortDesc (calculate_category_scores stem tokens)).map Prod.snd)
          n.toNat
        omega
      rw [div_le_one (by exact_mod_cast ht)]
      exact_mod_cast hsub
    · have hz : ∀ x ∈ (get_category_suggestions stem tokens n).map Prod.snd,
          x = 0 := by
        intro x hx
        rcases List.mem_map.mp hx with ⟨q, hq, rfl⟩
        rcases List.mem_map.mp hq with ⟨p, _, rfl⟩
        simp only [if_neg ht]
      rw [List.sum_eq_zero hz]
      norm_num
  · intro ht q hq
    rcases List.mem_map.mp hq with ⟨p, _, rfl⟩
    have hnt : ¬ 0 < ((calculate_category_scores stem tokens).map
        Prod.snd).sum := by omega
    simp only [if_neg hnt]

/-- Witness for C6 (amended) at `top_n = 2` and one matching token. -/
theorem get_category_suggestions_spec_witness :
    (((get_category_suggestions (fun _ => "wifi") ["wifi"] 2).length : ℤ) ≤ 2) ∧
    (((get_category_suggestions (fun _ => "wifi") ["wifi"] 2).map
      Prod.snd).sum ≤ 1) :=
  ⟨(get_category_suggestions_spec (fun _ => "wifi") ["wifi"] 2 (by norm_num)).1,
   (get_category_suggestions_spec (fun _ => "wifi") ["wifi"] 2
     (by norm_num)).2.2.2.2.1⟩

end AISmartCampus
